import Mathlib

/-!
Shallow embedding of the `vcnl4040.py` micropython driver
(register-access descriptors, the VCNL4040 register map, the interrupt
cache and the device initialisation sequence), together with theorems
settling the specification claims about it.

The device-visible state is the register file of the sensor: a function
from register address to byte index to stored byte.  Bus reads
(`readfrom_mem_into`) fill a `bytearray`, so each byte delivered is in
`0..255`; bus writes (`writeto_mem`) replace exactly the bytes of the
written buffer.  Fallible Python code (raised exceptions) is modelled
with `Except`: a raise aborts the operation before its single bus write,
so an error outcome returns the bus unchanged.
-/

namespace VCNL

/-- Sensor register file: register address → byte index → stored byte. -/
def Bus : Type := Nat → Nat → Nat

/-- Models `obj.i2c.readfrom_mem_into(addr, reg, buffer)` with `len(buffer) = w`:
the returned buffer holds the first `w` bytes of register `reg`.  A
`bytearray` cell holds `0..255`, hence the reduction mod 256. -/
def readBytes (bus : Bus) (reg w : Nat) : List Nat :=
  (List.range w).map (fun i => bus reg i % 256)

/-- Models `obj.i2c.writeto_mem(addr, reg, buffer)`: the buffer's bytes replace
the first `len(buffer)` bytes of register `reg`; everything else is
untouched. -/
def writeBytes (bus : Bus) (reg : Nat) (bytes : List Nat) : Bus :=
  fun r i => if r = reg ∧ i < bytes.length then bytes.getD i 0 else bus r i

/-- The Python exception classes raised by the driver code. -/
inductive PyErr where
  | attributeError
  | valueError
  | indexError
  | runtimeError
deriving DecidableEq, Repr

/-- Models `struct.unpack_from("<H", buf, 0)[0]`: unsigned 16-bit little-endian
decode at offset 0.  `"<H"` is the only struct format this driver uses. -/
def unpack_from_H (buf : List Nat) : Nat :=
  buf.getD 0 0 + 256 * buf.getD 1 0

/-- Models `struct.pack_into("<H", buf, off, value)`: requires
`off + calcsize("<H") ≤ len(buf)` (else micropython raises
"buffer too small"), then stores the two little-endian bytes of
`value` at offsets `off` and `off+1`. -/
def pack_into_H (buf : List Nat) (off value : Nat) : Except PyErr (List Nat) :=
  if off + 2 ≤ buf.length then
    .ok ((buf.set off (value % 256)).set (off + 1) (value / 256 % 256))
  else
    .error .valueError

/-- Models `UnaryStruct(register_address, "<H")`: whole-register read/write
descriptor; every instance in this register map uses format `"<H"`
(`struct.calcsize("<H") = 2`). -/
structure UnaryStruct where
  register : Nat
deriving DecidableEq, Repr

/-- Models `UnaryStruct.__get__`: one bus read of `calcsize` bytes, decoded at
buffer offset 0. -/
def UnaryStruct.get (f : UnaryStruct) (bus : Bus) : Nat :=
  unpack_from_H (readBytes bus f.register 2)

/-- Models `UnaryStruct.__set__`: `buf = bytearray(struct.calcsize(self.format))`,
then `struct.pack_into(self.format, buf, 1, value)` — note the offset 1
into a buffer of exactly `calcsize` bytes — then one bus write.  A raise
in `pack_into` aborts before the bus write. -/
def UnaryStruct.set (f : UnaryStruct) (bus : Bus) (value : Nat) :
    Except PyErr Unit × Bus :=
  match pack_into_H (List.replicate 2 0) 1 value with
  | .error e => (.error e, bus)
  | .ok buf => (.ok (), writeBytes bus f.register buf)

/-- Models `ROUnaryStruct(register_address, "<H")`: read-only variant. -/
structure ROUnaryStruct where
  register : Nat
deriving DecidableEq, Repr

/-- Models `ROUnaryStruct.__get__`, inherited from `UnaryStruct`. -/
def ROUnaryStruct.get (f : ROUnaryStruct) (bus : Bus) : Nat :=
  UnaryStruct.get ⟨f.register⟩ bus

/-- Models `ROUnaryStruct.__set__`: `raise AttributeError()` — no bus access at
all, the bus is returned untouched. -/
def ROUnaryStruct.set (_f : ROUnaryStruct) (bus : Bus) (_value : Nat) :
    Except PyErr Unit × Bus :=
  (.error .attributeError, bus)

/-- Models `RWBit`: single-bit read/write descriptor. -/
structure RWBit where
  bit_mask : Nat
  register : Nat
  width : Nat
  byte : Nat
deriving DecidableEq, Repr

/-- Models `RWBit.__init__(register_address, bit, register_width, lsb_first)`:
`bit_mask = 1 << (bit % 8)` (the mask within the byte), and the byte
index within the buffer is `bit // 8` when `lsb_first` else
`register_width - bit // 8 - 1`. -/
def RWBit.make (register_address bit register_width : Nat) (lsb_first : Bool) :
    RWBit :=
  { bit_mask := 1 <<< (bit % 8)
    register := register_address
    width := register_width
    byte := if lsb_first then bit / 8 else register_width - bit / 8 - 1 }

/-- Models `RWBit.__get__`: one register read, then
`bool(self.buffer[self.byte] & self.bit_mask)`; an out-of-range byte
index raises IndexError. -/
def RWBit.get (f : RWBit) (bus : Bus) : Except PyErr Bool :=
  let buffer := readBytes bus f.register f.width
  match buffer.get? f.byte with
  | none => .error .indexError
  | some b => .ok (decide (b &&& f.bit_mask ≠ 0))

/-- Models `RWBit.__set__`: read the register bytes, set or clear the targeted
bit of the targeted byte (`b | mask` resp. `b & ~mask`; with `b < 256`
and `mask < 256` the Python `b & ~mask` equals `b &&& (255 ^^^ mask)`),
then write all bytes back. -/
def RWBit.set (f : RWBit) (bus : Bus) (value : Bool) :
    Except PyErr Unit × Bus :=
  let buffer := readBytes bus f.register f.width
  match buffer.get? f.byte with
  | none => (.error .indexError, bus)
  | some b =>
      let b' := if value then b ||| f.bit_mask else b &&& (255 ^^^ f.bit_mask)
      (.ok (), writeBytes bus f.register (buffer.set f.byte b'))

/-- Models `RWBits`: multi-bit-field read/write descriptor. -/
structure RWBits where
  bit_mask : Nat
  lowest_bit : Nat
  width : Nat
  lsb_first : Bool
  register : Nat
deriving DecidableEq, Repr

/-- Models `RWBits.__init__(num_bits, register_address, lowest_bit,
register_width, lsb_first)`: builds
`bit_mask = ((1 << num_bits) - 1) << lowest_bit` and raises
`ValueError("Cannot have more bits than register size")` when
`bit_mask >= 1 << (register_width * 8)`. -/
def RWBits.make (num_bits register_address lowest_bit register_width : Nat)
    (lsb_first : Bool) : Except PyErr RWBits :=
  let bit_mask := ((1 <<< num_bits) - 1) <<< lowest_bit
  if 1 <<< (register_width * 8) ≤ bit_mask then
    .error .valueError
  else
    .ok { bit_mask := bit_mask
          lowest_bit := lowest_bit
          width := register_width
          lsb_first := lsb_first
          register := register_address }

/-- Models `RWBits.__get__`: read the register bytes, then
`order = range(len(buffer), 0, -1)` (i.e. `[len, …, 1]`), reversed when
not `lsb_first`; `reg = fold (reg << 8) | buffer[i-1]` over `order`;
return `(reg & bit_mask) >> lowest_bit`.  Every index `i - 1` is in
range, so the read never raises. -/
def RWBits.get (f : RWBits) (bus : Bus) : Nat :=
  let buffer := readBytes bus f.register f.width
  let order := if f.lsb_first then ((List.range f.width).map (· + 1)).reverse
    else (List.range f.width).map (· + 1)
  let reg := order.foldl (fun reg i => (reg <<< 8) ||| buffer.getD (i - 1) 0) 0
  (reg &&& f.bit_mask) >>> f.lowest_bit

/-- Models `RWBits.__set__`: shift the value to the field position, read the
register bytes, reassemble with `reg = (reg << 8) | self.buffer[i]` over
`order = range(len(buffer), 0, -1)` (or `range(0, len(buffer))` when not
`lsb_first`) — note the index is `i`, not `i - 1` — clear the mask bits
(`reg &= ~bit_mask`, i.e. `reg - (reg &&& bit_mask)` on arbitrary-size
naturals), OR in the shifted value, then store `reg & 0xFF` back through
`self.buffer[i]` over `reversed(order)` and bus-write the buffer.  Any
out-of-range buffer index raises IndexError before the bus write. -/
def RWBits.set (f : RWBits) (bus : Bus) (value : Nat) :
    Except PyErr Unit × Bus :=
  let v := value <<< f.lowest_bit
  let buffer := readBytes bus f.register f.width
  let order := if f.lsb_first then ((List.range f.width).map (· + 1)).reverse
    else List.range f.width
  match order.foldlM (fun reg i =>
      (buffer.get? i).map (fun b => (reg <<< 8) ||| b)) 0 with
  | none => (.error .indexError, bus)
  | some reg0 =>
      let reg1 := (reg0 - (reg0 &&& f.bit_mask)) ||| v
      match order.reverse.foldlM (fun (p : List Nat × Nat) i =>
          if i < p.1.length then some (p.1.set i (p.2 &&& 255), p.2 >>> 8)
          else none) (buffer, reg1) with
      | none => (.error .indexError, bus)
      | some p => (.ok (), writeBytes bus f.register p.1)

/-! ## The VCNL4040 register map -/

/-- Models `_device_id = UnaryStruct(0x0C, "<H")` — declared with the writable
whole-register descriptor, not the read-only variant. -/
def _device_id : UnaryStruct := ⟨0x0C⟩

/-- Models `proximity = ROUnaryStruct(0x08, "<H")` -/
def proximity : ROUnaryStruct := ⟨0x08⟩

/-- Models `light = ROUnaryStruct(0x09, "<H")` -/
def light : ROUnaryStruct := ⟨0x09⟩

/-- Models `_raw_white = ROUnaryStruct(0x0A, "<H")` -/
def _raw_white : ROUnaryStruct := ⟨0x0A⟩

/-- Models `interrupt_state = ROUnaryStruct(0x0B, "<H")` -/
def interrupt_state : ROUnaryStruct := ⟨0x0B⟩

/-- Models `proximity_low_threshold = UnaryStruct(0x06, "<H")` -/
def proximity_low_threshold : UnaryStruct := ⟨0x06⟩

/-- Models `proximity_high_threshold = UnaryStruct(0x07, "<H")` -/
def proximity_high_threshold : UnaryStruct := ⟨0x07⟩

/-- Models `light_low_threshold = UnaryStruct(0x02, "<H")` -/
def light_low_threshold : UnaryStruct := ⟨0x02⟩

/-- Models `light_high_threshold = UnaryStruct(0x01, "<H")` -/
def light_high_threshold : UnaryStruct := ⟨0x01⟩

/-- Models `proximity_shutdown = RWBit(0x03, 0, register_width=2)` -/
def proximity_shutdown : RWBit := RWBit.make 0x03 0 2 true

/-- Models `proximity_bits = RWBit(0x03, 11, register_width=2)` -/
def proximity_bits : RWBit := RWBit.make 0x03 11 2 true

/-- Models `light_shutdown = RWBit(0x00, 0, register_width=2)` -/
def light_shutdown : RWBit := RWBit.make 0x00 0 2 true

/-- Models `light_interrupt = RWBit(0x00, 1, register_width=2)` -/
def light_interrupt : RWBit := RWBit.make 0x00 1 2 true

/-- Models `white_shutdown = RWBit(0x04, 15, register_width=2)` -/
def white_shutdown : RWBit := RWBit.make 0x04 15 2 true

/-- Models `proximity_integration_time = RWBits(3, 0x03, 1, register_width=2)`:
the record `RWBits.__init__` builds (mask `0b111 << 1` fits in 16 bits). -/
def proximity_integration_time : RWBits :=
  { bit_mask := 7 <<< 1, lowest_bit := 1, width := 2, lsb_first := true
    register := 0x03 }

/-- Models `proximity_interrupt = RWBits(2, 0x03, 8, register_width=2)` -/
def proximity_interrupt : RWBits :=
  { bit_mask := 3 <<< 8, lowest_bit := 8, width := 2, lsb_first := true
    register := 0x03 }

/-- Models `led_current = RWBits(3, 0x04, 8, register_width=2)` -/
def led_current : RWBits :=
  { bit_mask := 7 <<< 8, lowest_bit := 8, width := 2, lsb_first := true
    register := 0x04 }

/-- Models `led_duty_cycle = RWBits(2, 0x03, 6, register_width=2)` -/
def led_duty_cycle : RWBits :=
  { bit_mask := 3 <<< 6, lowest_bit := 6, width := 2, lsb_first := true
    register := 0x03 }

/-- Models `_light_integration_time = RWBits(2, 0x00, 6, register_width=2)` -/
def _light_integration_time : RWBits :=
  { bit_mask := 3 <<< 6, lowest_bit := 6, width := 2, lsb_first := true
    register := 0x00 }

/-! ## Interrupt flags, cache and device -/

/-- Models `ALS_IF_L = const(0x0D)` — ALS-low flag's bit offset in the
interrupt-status register. -/
def ALS_IF_L : Nat := 0x0D

/-- Models `ALS_IF_H = const(0x0C)` -/
def ALS_IF_H : Nat := 0x0C

/-- Models `PS_IF_CLOSE = const(0x09)` -/
def PS_IF_CLOSE : Nat := 0x09

/-- Models `PS_IF_AWAY = const(0x08)` -/
def PS_IF_AWAY : Nat := 0x08

/-- Models `self.cached_interrupt_state`: a dict holding exactly the four keys
`ALS_IF_L`, `ALS_IF_H`, `PS_IF_CLOSE`, `PS_IF_AWAY`, each mapped to a
boolean latch. -/
structure InterruptCache where
  als_if_l : Bool
  als_if_h : Bool
  ps_if_close : Bool
  ps_if_away : Bool
deriving DecidableEq, Repr

/-- Dict lookup `cached_interrupt_state[k]` (only the four flag constants
are ever used as keys). -/
def InterruptCache.get (c : InterruptCache) (k : Nat) : Bool :=
  if k = ALS_IF_L then c.als_if_l
  else if k = ALS_IF_H then c.als_if_h
  else if k = PS_IF_CLOSE then c.ps_if_close
  else if k = PS_IF_AWAY then c.ps_if_away
  else false

/-- Dict store `cached_interrupt_state[k] = v`. -/
def InterruptCache.store (c : InterruptCache) (k : Nat) (v : Bool) :
    InterruptCache :=
  if k = ALS_IF_L then { c with als_if_l := v }
  else if k = ALS_IF_H then { c with als_if_h := v }
  else if k = PS_IF_CLOSE then { c with ps_if_close := v }
  else if k = PS_IF_AWAY then { c with ps_if_away := v }
  else c

/-- The cache as built in `__init__`: every flag `False`. -/
def initialCache : InterruptCache := ⟨false, false, false, false⟩

/-- The driver object state: the sensor register file it talks to plus
its in-memory interrupt cache. -/
structure Device where
  bus : Bus
  cache : InterruptCache

/-- Models `VCNL4040._update_interrupt_state`: one read of the interrupt-status
register; for each flag in `[PS_IF_AWAY, PS_IF_CLOSE, ALS_IF_H,
ALS_IF_L]`, if `new_interrupt_state & (1 << interrupt) > 0` then store
`True` for that flag (a clear status bit leaves the cache entry
untouched). -/
def Device.update_interrupt_state (d : Device) : Device :=
  let interrupts := [PS_IF_AWAY, PS_IF_CLOSE, ALS_IF_H, ALS_IF_L]
  let new_interrupt_state := ROUnaryStruct.get interrupt_state d.bus
  let cache := interrupts.foldl (fun c interrupt =>
      if new_interrupt_state &&& (1 <<< interrupt) > 0 then
        c.store interrupt true
      else c) d.cache
  { d with cache := cache }

/-- Models `VCNL4040._get_and_clear_cached_interrupt_state(interrupt_offset)`:
refresh the cache from the status register, return the cached boolean
for the flag and reset it to `False`. -/
def Device.get_and_clear_cached_interrupt_state (d : Device)
    (interrupt_offset : Nat) : Bool × Device :=
  let d := d.update_interrupt_state
  let new_interrupt_state := d.cache.get interrupt_offset
  (new_interrupt_state, { d with cache := d.cache.store interrupt_offset false })

/-- Models `VCNL4040.proximity_high_interrupt` property. -/
def Device.proximity_high_interrupt (d : Device) : Bool × Device :=
  d.get_and_clear_cached_interrupt_state PS_IF_CLOSE

/-- Models `VCNL4040.proximity_low_interrupt` property. -/
def Device.proximity_low_interrupt (d : Device) : Bool × Device :=
  d.get_and_clear_cached_interrupt_state PS_IF_AWAY

/-- Models `VCNL4040.light_high_interrupt` property. -/
def Device.light_high_interrupt (d : Device) : Bool × Device :=
  d.get_and_clear_cached_interrupt_state ALS_IF_H

/-- Models `VCNL4040.light_low_interrupt` property. -/
def Device.light_low_interrupt (d : Device) : Bool × Device :=
  d.get_and_clear_cached_interrupt_state ALS_IF_L

/-- Models `VCNL4040.__init__(i2c, address=0x60)`: read `_device_id`; raise
`RuntimeError("Failed to find VCNL4040 - check wiring!")` when it is not
`0x186`; otherwise build the all-false interrupt cache and assign
`False` to `proximity_shutdown`, `light_shutdown` and `white_shutdown`
in that order.  The second component of the result is the register file
after exactly the bus writes that were performed before any raise. -/
def VCNL4040.init (bus : Bus) : Except PyErr Device × Bus :=
  if UnaryStruct.get _device_id bus ≠ 0x186 then (.error .runtimeError, bus)
  else
    let s1 := RWBit.set proximity_shutdown bus false
    match s1.1 with
    | .error e => (.error e, s1.2)
    | .ok _ =>
      let s2 := RWBit.set light_shutdown s1.2 false
      match s2.1 with
      | .error e => (.error e, s2.2)
      | .ok _ =>
        let s3 := RWBit.set white_shutdown s2.2 false
        match s3.1 with
        | .error e => (.error e, s3.2)
        | .ok _ => (.ok { bus := s3.2, cache := initialCache }, s3.2)

/-- Models `VCNL4040.light_integration_time` property getter (reads the
`_light_integration_time` bit field). -/
def Device.light_integration_time (d : Device) : Nat :=
  RWBits.get _light_integration_time d.bus

/-- Models `VCNL4040.lux`: `self.light * (0.1 / (1 << self.light_integration_time))`,
with the arithmetic carried out exactly over `ℚ` (`0.1 = 1/10`). -/
def Device.lux (d : Device) : ℚ :=
  (ROUnaryStruct.get light d.bus : ℚ) *
    ((1 / 10 : ℚ) / ((1 <<< d.light_integration_time : Nat) : ℚ))

/-- Models `VCNL4040.white`: `self._raw_white * (0.1 / (1 << self.light_integration_time))`. -/
def Device.white (d : Device) : ℚ :=
  (ROUnaryStruct.get _raw_white d.bus : ℚ) *
    ((1 / 10 : ℚ) / ((1 <<< d.light_integration_time : Nat) : ℚ))

/-- Models `VCNL4040.light_integration_time` setter: read the old setting,
`old_it_ms = (8 << old) * 10`, `new_it_ms = (8 << new_it) * 10`, delay
`old_it_ms + new_it_ms + 1` milliseconds (the code sleeps
`delay_ms * 0.001` seconds), write the new setting, then sleep.  On
success the result carries the updated device and the slept delay in
milliseconds; a raise inside the register write aborts before the
sleep. -/
def Device.set_light_integration_time (d : Device) (new_it : Nat) :
    Except PyErr (Device × Nat) :=
  let old_it_ms := (8 <<< RWBits.get _light_integration_time d.bus) * 10
  let new_it_ms := (8 <<< new_it) * 10
  let it_delay_ms := old_it_ms + new_it_ms + 1
  match RWBits.set _light_integration_time d.bus new_it with
  | (.error e, _) => .error e
  | (.ok _, bus) => .ok ({ d with bus := bus }, it_delay_ms)

/-! ## Helper lemmas about the embedding -/

theorem readBytes_length (bus : Bus) (reg w : Nat) :
    (readBytes bus reg w).length = w := by
  simp [readBytes]

theorem readBytes_get? (bus : Bus) (reg w i : Nat) (h : i < w) :
    (readBytes bus reg w).get? i = some (bus reg i % 256) := by
  simp [readBytes, List.get?_eq_getElem?, List.getElem?_map, List.getElem?_range h]

theorem readBytes_get?_none (bus : Bus) (reg w i : Nat) (h : w ≤ i) :
    (readBytes bus reg w).get? i = none := by
  rw [List.get?_eq_getElem?]
  exact List.getElem?_eq_none (by simpa [readBytes_length] using h)

theorem foldlM_head_none {α β : Type} (g : β → α → Option β) (b : β) (a : α)
    (l : List α) (h : g b a = none) : List.foldlM g b (a :: l) = none := by
  rw [List.foldlM_cons, h]
  rfl

/-- Every multi-bit field write through an `lsb_first` accessor with a
non-empty buffer raises IndexError: the reassembly loop's first index is
`len(buffer)`, one past the end. -/
theorem rwbits_set_lsb_raises (f : RWBits) (hf : f.lsb_first = true)
    (hw : 0 < f.width) (bus : Bus) (value : Nat) :
    RWBits.set f bus value = (.error .indexError, bus) := by
  obtain ⟨k, hk⟩ : ∃ k, f.width = k + 1 := ⟨f.width - 1, by omega⟩
  unfold RWBits.set
  rw [hf]
  simp only [if_true]
  rw [hk, List.range_succ, List.map_append, List.reverse_append]
  simp only [List.map_cons, List.map_nil, List.reverse_singleton,
    List.singleton_append]
  have hnone : (readBytes bus f.register (k + 1)).get? (k + 1) = none :=
    readBytes_get?_none bus f.register (k + 1) (k + 1) (by omega)
  rw [foldlM_head_none _ _ _ _ (by rw [hnone]; rfl)]

/-- C1: as the specification describes it, `write(v)` on a multi-bit
field should shift, read-modify-write and store back so that a
subsequent `read()` returns `v`; instead, for every `lsb_first`
multi-bit accessor of the register map the write raises IndexError
(the reassembly loop reads `self.buffer[i]` for `i` in
`range(len(buffer), 0, -1)`, so its first access is one past the end)
and no bus write happens, for every value and every register content. -/
theorem C1_rwbits_write_raises (bus : Bus) (v : Nat) :
    RWBits.set proximity_integration_time bus v = (.error .indexError, bus) ∧
    RWBits.set proximity_interrupt bus v = (.error .indexError, bus) ∧
    RWBits.set led_current bus v = (.error .indexError, bus) ∧
    RWBits.set led_duty_cycle bus v = (.error .indexError, bus) ∧
    RWBits.set _light_integration_time bus v = (.error .indexError, bus) :=
  ⟨rwbits_set_lsb_raises _ rfl (by decide) bus v,
   rwbits_set_lsb_raises _ rfl (by decide) bus v,
   rwbits_set_lsb_raises _ rfl (by decide) bus v,
   rwbits_set_lsb_raises _ rfl (by decide) bus v,
   rwbits_set_lsb_raises _ rfl (by decide) bus v⟩

/-- C2: as the specification describes it, a whole-register write should
serialize the value at the buffer offset consistent with the `"<H"`
encoding (offset 0) and perform exactly one bus write; instead the code
calls `struct.pack_into(self.format, buf, 1, value)` on a buffer of
exactly `calcsize(self.format)` bytes, which always raises (buffer too
small), so every whole-register threshold write errors out and no bus
write ever happens. -/
theorem C2_unarystruct_write_raises (bus : Bus) (v : Nat) :
    UnaryStruct.set proximity_low_threshold bus v = (.error .valueError, bus) ∧
    UnaryStruct.set proximity_high_threshold bus v = (.error .valueError, bus) ∧
    UnaryStruct.set light_low_threshold bus v = (.error .valueError, bus) ∧
    UnaryStruct.set light_high_threshold bus v = (.error .valueError, bus) :=
  ⟨rfl, rfl, rfl, rfl⟩

/-- C10: `RWBits` construction fails with the field-wider-than-register
error exactly when the mask `((1 << num_bits) - 1) << lowest_bit` does
not fit within `register_width * 8` bits; when the mask fits,
construction succeeds and returns the accessor record, so the check
happens at register-map build time, never at first access. -/
theorem C10_make_fails_iff (num_bits register_address lowest_bit
    register_width : Nat) (lsb_first : Bool) :
    ((∃ e, RWBits.make num_bits register_address lowest_bit register_width
        lsb_first = .error e) ↔
      1 <<< (register_width * 8) ≤ ((1 <<< num_bits) - 1) <<< lowest_bit) ∧
    (((1 <<< num_bits) - 1) <<< lowest_bit < 1 <<< (register_width * 8) →
      RWBits.make num_bits register_address lowest_bit register_width lsb_first
        = .ok { bit_mask := ((1 <<< num_bits) - 1) <<< lowest_bit
                lowest_bit := lowest_bit, width := register_width
                lsb_first := lsb_first, register := register_address }) := by
  unfold RWBits.make
  constructor
  · constructor
    · rintro ⟨e, he⟩
      by_contra h
      rw [if_neg h] at he
      exact Except.noConfusion he
    · intro h
      exact ⟨.valueError, by rw [if_pos h]⟩
  · intro h
    rw [if_neg (by omega)]

/-- C10 witness: a 9-bit field at lowest bit 8 of a 2-byte register is
rejected at construction; the 2-bit field at lowest bit 6 used for the
light integration time is accepted and yields its accessor record. -/
theorem C10_witness :
    (∃ e, RWBits.make 9 0x03 8 2 true = .error e) ∧
    RWBits.make 2 0x00 6 2 true = .ok _light_integration_time :=
  ⟨(C10_make_fails_iff 9 0x03 8 2 true).1.2 (by decide),
   (C10_make_fails_iff 2 0x00 6 2 true).2 (by decide)⟩

/-- The all-zero register file, used as a concrete input. -/
def busZero : Bus := fun _ _ => 0

/-- C4 counterexample: the device-ID register (0x0C) is declared with
the writable `UnaryStruct` descriptor, not the read-only variant, so an
attempted write is not rejected with the immutable-field
`AttributeError` (with this code it raises the serializer's buffer
ValueError instead). -/
theorem C4_counterexample :
    (UnaryStruct.set _device_id busZero 0).1 = .error .valueError ∧
    PyErr.valueError ≠ PyErr.attributeError :=
  ⟨rfl, by decide⟩

/-- C4 (amended): for the registers exposed through the read-only
descriptor — proximity count (0x08), raw light count (0x09), raw white
count (0x0A) and interrupt status (0x0B) — every write attempt raises
`AttributeError` (field is immutable) and performs no bus write, for
every value; the device-ID register is not among them, being declared
with the writable whole-register descriptor. -/
theorem C4_read_only_write_rejected (bus : Bus) (v : Nat) :
    ROUnaryStruct.set proximity bus v = (.error .attributeError, bus) ∧
    ROUnaryStruct.set light bus v = (.error .attributeError, bus) ∧
    ROUnaryStruct.set _raw_white bus v = (.error .attributeError, bus) ∧
    ROUnaryStruct.set interrupt_state bus v = (.error .attributeError, bus) :=
  ⟨rfl, rfl, rfl, rfl⟩

/-- One refresh pass over the cache: each of the four entries becomes
its old value OR-ed with its status bit from a single read of the
interrupt-status register. -/
theorem update_interrupt_state_cache (d : Device) :
    (d.update_interrupt_state).cache =
      { als_if_l := d.cache.als_if_l ||
          decide (ROUnaryStruct.get interrupt_state d.bus &&& (1 <<< ALS_IF_L) > 0)
        als_if_h := d.cache.als_if_h ||
          decide (ROUnaryStruct.get interrupt_state d.bus &&& (1 <<< ALS_IF_H) > 0)
        ps_if_close := d.cache.ps_if_close ||
          decide (ROUnaryStruct.get interrupt_state d.bus &&& (1 <<< PS_IF_CLOSE) > 0)
        ps_if_away := d.cache.ps_if_away ||
          decide (ROUnaryStruct.get interrupt_state d.bus &&& (1 <<< PS_IF_AWAY) > 0) } := by
  unfold Device.update_interrupt_state
  simp only [List.foldl_cons, List.foldl_nil, ALS_IF_L, ALS_IF_H, PS_IF_CLOSE,
    PS_IF_AWAY, InterruptCache.store]
  by_cases h8 : 0 < ROUnaryStruct.get interrupt_state d.bus &&& 256 <;>
    by_cases h9 : 0 < ROUnaryStruct.get interrupt_state d.bus &&& 512 <;>
    by_cases h12 : 0 < ROUnaryStruct.get interrupt_state d.bus &&& 4096 <;>
    by_cases h13 : 0 < ROUnaryStruct.get interrupt_state d.bus &&& 8192 <;>
    simp_all

/-- C3 counterexample: the claim assigns PS_close bit offset 8 and
PS_away bit offset 9; in the code `PS_IF_CLOSE = 0x09` and
`PS_IF_AWAY = 0x08` — the first two offsets are the other way round. -/
theorem C3_counterexample :
    ¬ (PS_IF_CLOSE = 8 ∧ PS_IF_AWAY = 9 ∧ ALS_IF_H = 12 ∧ ALS_IF_L = 13) := by
  decide

/-- C3 (amended): the four interrupt flags are single bits of the
16-bit interrupt-status register at bit offsets PS_close 9, PS_away 8,
ALS_high 12, ALS_low 13; the refresh routine latches each flag from the
bit `1 << offset` of one status read, and each flag-consuming property
selects the cache entry with the same constant. -/
theorem C3_flag_bit_offsets (d : Device) :
    (PS_IF_CLOSE = 9 ∧ PS_IF_AWAY = 8 ∧ ALS_IF_H = 12 ∧ ALS_IF_L = 13) ∧
    ((d.update_interrupt_state).cache.ps_if_close
        = (d.cache.ps_if_close ||
            decide (ROUnaryStruct.get interrupt_state d.bus &&& (1 <<< 9) > 0)) ∧
     (d.update_interrupt_state).cache.ps_if_away
        = (d.cache.ps_if_away ||
            decide (ROUnaryStruct.get interrupt_state d.bus &&& (1 <<< 8) > 0)) ∧
     (d.update_interrupt_state).cache.als_if_h
        = (d.cache.als_if_h ||
            decide (ROUnaryStruct.get interrupt_state d.bus &&& (1 <<< 12) > 0)) ∧
     (d.update_interrupt_state).cache.als_if_l
        = (d.cache.als_if_l ||
            decide (ROUnaryStruct.get interrupt_state d.bus &&& (1 <<< 13) > 0))) ∧
    (d.proximity_high_interrupt = d.get_and_clear_cached_interrupt_state PS_IF_CLOSE ∧
     d.proximity_low_interrupt = d.get_and_clear_cached_interrupt_state PS_IF_AWAY ∧
     d.light_high_interrupt = d.get_and_clear_cached_interrupt_state ALS_IF_H ∧
     d.light_low_interrupt = d.get_and_clear_cached_interrupt_state ALS_IF_L) := by
  refine ⟨⟨rfl, rfl, rfl, rfl⟩, ?_, ⟨rfl, rfl, rfl, rfl⟩⟩
  rw [update_interrupt_state_cache d]
  exact ⟨rfl, rfl, rfl, rfl⟩

set_option maxRecDepth 4096 in
/-- Setting then clearing a single bit of a byte restores the byte when
the bit was clear to begin with. -/
theorem byte_restore_helper :
    ∀ b < 256, ∀ p < 8, b &&& (1 <<< p) = 0 →
      (b ||| (1 <<< p)) &&& (255 ^^^ (1 <<< p)) = b := by
  decide

set_option maxRecDepth 4096 in
/-- OR-ing a single bit below 8 into a byte stays a byte. -/
theorem lor_byte_lt : ∀ b < 256, ∀ p < 8, b ||| (1 <<< p) < 256 := by
  decide

/-- A single-bit write through an `lsb_first` accessor with its byte in
range is a read-modify-write: the result sets or clears exactly the
targeted bit of the targeted byte and writes the register's other bytes
back as read. -/
theorem rwbit_set_make_eq (reg bit w : Nat) (bus : Bus) (value : Bool)
    (hbw : bit / 8 < w) :
    RWBit.set (RWBit.make reg bit w true) bus value =
      (.ok (), fun r i =>
        if r = reg ∧ i < w then
          (if i = bit / 8 then
            (if value then bus reg (bit / 8) % 256 ||| 1 <<< (bit % 8)
             else bus reg (bit / 8) % 256 &&& (255 ^^^ 1 <<< (bit % 8)))
           else bus r i % 256)
        else bus r i) := by
  have hget := readBytes_get? bus reg w (bit / 8) hbw
  simp only [RWBit.set, RWBit.make, if_true, hget]
  refine Prod.ext rfl ?_
  funext r i
  simp only [writeBytes, List.length_set, readBytes_length]
  by_cases hcond : r = reg ∧ i < w
  · rw [if_pos hcond, if_pos hcond]
    rcases hcond with ⟨rfl, hi⟩
    rw [List.getD_eq_getElem?_getD, List.getElem?_set]
    by_cases hij : i = bit / 8
    · subst hij
      rw [if_pos rfl, if_pos (by simpa [readBytes_length] using hbw)]
      simp
    · rw [if_neg (fun h => hij h.symm), ← List.get?_eq_getElem?,
        readBytes_get? bus r w i hi]
      simp [hij]
  · rw [if_neg hcond, if_neg hcond]

/-- The starting register content for the C9 counterexample: register
0x03 holds bytes `[1, 0]`, i.e. the proximity-shutdown bit is set. -/
def busC9 : Bus := fun r i => if r = 3 ∧ i = 0 then 1 else 0

/-- C9 counterexample: from a register whose targeted bit is already
set, writing `true` then `false` through the proximity-shutdown bit
accessor does not restore the original byte pattern: register 0x03's
byte 0 starts as 1 and ends as 0. -/
theorem C9_counterexample :
    (RWBit.set proximity_shutdown
        (RWBit.set proximity_shutdown busC9 true).2 false).2 3 0 ≠ busC9 3 0 := by
  decide

/-- C9 (amended): every single-bit write is a read-modify-write that
changes only the targeted bit of the targeted byte and writes every
other byte back as read; consequently writing true then false restores
the original full-register byte pattern whenever the targeted bit was
initially clear (writing true then false always leaves the bit cleared,
so contents with the bit initially set end with it cleared instead). -/
theorem C9_rwbit_frame (reg bit w : Nat) (bus : Bus) (value : Bool)
    (hbw : bit / 8 < w) :
    ((RWBit.set (RWBit.make reg bit w true) bus value).1 = .ok () ∧
     ∀ r i, ¬ (r = reg ∧ i < w) →
       (RWBit.set (RWBit.make reg bit w true) bus value).2 r i = bus r i) ∧
    (∀ r i, r = reg → i < w → i ≠ bit / 8 →
       (RWBit.set (RWBit.make reg bit w true) bus value).2 r i = bus r i % 256) ∧
    (bus reg (bit / 8) % 256 &&& 1 <<< (bit % 8) = 0 →
     ∀ r i,
       (RWBit.set (RWBit.make reg bit w true)
           (RWBit.set (RWBit.make reg bit w true) bus true).2 false).2 r i
         = if r = reg ∧ i < w then bus r i % 256 else bus r i) := by
  have key := rwbit_set_make_eq reg bit w bus value hbw
  refine ⟨⟨?_, ?_⟩, ?_, ?_⟩
  · rw [key]
  · intro r i h
    rw [key]
    dsimp only
    rw [if_neg h]
  · intro r i hr hi hij
    subst hr
    rw [key]
    dsimp only
    rw [if_pos ⟨rfl, hi⟩, if_neg hij]
  · intro hclear r i
    have key1 := rwbit_set_make_eq reg bit w bus true hbw
    have key2 := rwbit_set_make_eq reg bit w
      (RWBit.set (RWBit.make reg bit w true) bus true).2 false hbw
    have hbus1 : ∀ j, j < w →
        (RWBit.set (RWBit.make reg bit w true) bus true).2 reg j =
          if j = bit / 8 then bus reg (bit / 8) % 256 ||| 1 <<< (bit % 8)
          else bus reg j % 256 := by
      intro j hj
      rw [key1]
      dsimp only
      rw [if_pos ⟨rfl, hj⟩]
      simp
    rw [key2]
    dsimp only
    by_cases hcond : r = reg ∧ i < w
    · rw [if_pos hcond, if_pos hcond]
      rcases hcond with ⟨rfl, hi⟩
      by_cases hij : i = bit / 8
      · subst hij
        have hb : bus r (bit / 8) % 256 < 256 := Nat.mod_lt _ (by norm_num)
        have hp : bit % 8 < 8 := Nat.mod_lt _ (by norm_num)
        rw [hbus1 _ hi, if_pos rfl, if_neg (by decide : ¬ (false = true)),
          if_pos rfl, Nat.mod_eq_of_lt (lor_byte_lt _ hb _ hp)]
        exact byte_restore_helper _ hb _ hp hclear
      · rw [if_neg hij, hbus1 _ hi, if_neg hij,
          Nat.mod_mod_of_dvd _ (dvd_refl 256)]
    · rw [if_neg hcond, if_neg hcond, key1]
      dsimp only
      rw [if_neg hcond]

/-- C9 witness: the restore property applied to the proximity-shutdown
bit accessor on the all-zero register file. -/
theorem C9_witness :
    (RWBit.set (RWBit.make 3 0 2 true)
        (RWBit.set (RWBit.make 3 0 2 true) busZero true).2 false).2 3 0 = 0 := by
  have h := (C9_rwbit_frame 3 0 2 busZero true (by decide)).2.2 (by decide) 3 0
  simpa [busZero] using h

/-- C7: as the specification describes it, the integration-time setter
should write the new setting and then block for
`old_ms + new_ms + 1` milliseconds (721 ms for 80 ms → 640 ms); instead
the register write through the `_light_integration_time` multi-bit
accessor raises IndexError for every device state and every new
setting, so the setter never stores the setting and never sleeps. -/
theorem C7_set_integration_time_raises (d : Device) (new_it : Nat) :
    d.set_light_integration_time new_it = .error .indexError := by
  unfold Device.set_light_integration_time
  rw [rwbits_set_lsb_raises _light_integration_time rfl (by decide) d.bus new_it]

/-- Register file with raw ambient-light (0x09) and raw white (0x0A)
counts of 1000 and integration-time setting 0. -/
def busLux0 : Bus := fun r i =>
  if (r = 9 ∨ r = 10) ∧ i = 0 then 0xE8
  else if (r = 9 ∨ r = 10) ∧ i = 1 then 0x03 else 0

/-- Register file with raw ambient-light (0x09) and raw white (0x0A)
counts of 1000 and integration-time setting 3 (bits 6-7 of register
0x00's low byte). -/
def busLux3 : Bus := fun r i =>
  if (r = 9 ∨ r = 10) ∧ i = 0 then 0xE8
  else if (r = 9 ∨ r = 10) ∧ i = 1 then 0x03
  else if r = 0 ∧ i = 0 then 0xC0 else 0

/-- C8: `lux` and `white` are pure functions of fresh register reads,
equal to `raw_count × (0.1 / 2^integration_time_setting)` (exact ℚ
arithmetic with `0.1 = 1/10`); at the cited vectors, raw count 1000 at
setting 0 gives 100 lux and raw count 1000 at setting 3 gives 12.5. -/
theorem C8_lux_white_scaling (d : Device) :
    (d.lux = (ROUnaryStruct.get light d.bus : ℚ) *
        ((1 / 10 : ℚ) / (2 ^ d.light_integration_time : ℚ))) ∧
    (d.white = (ROUnaryStruct.get _raw_white d.bus : ℚ) *
        ((1 / 10 : ℚ) / (2 ^ d.light_integration_time : ℚ))) ∧
    Device.lux ⟨busLux0, initialCache⟩ = 100 ∧
    Device.white ⟨busLux0, initialCache⟩ = 100 ∧
    Device.lux ⟨busLux3, initialCache⟩ = 25 / 2 ∧
    Device.white ⟨busLux3, initialCache⟩ = 25 / 2 := by
  have h0l : ROUnaryStruct.get light busLux0 = 1000 := rfl
  have h0w : ROUnaryStruct.get _raw_white busLux0 = 1000 := rfl
  have h0t : Device.light_integration_time ⟨busLux0, initialCache⟩ = 0 := rfl
  have h3l : ROUnaryStruct.get light busLux3 = 1000 := rfl
  have h3w : ROUnaryStruct.get _raw_white busLux3 = 1000 := rfl
  have h3t : Device.light_integration_time ⟨busLux3, initialCache⟩ = 3 := rfl
  refine ⟨?_, ?_, ?_, ?_, ?_, ?_⟩
  · simp [Device.lux, Nat.shiftLeft_eq]
  · simp [Device.white, Nat.shiftLeft_eq]
  · simp only [Device.lux, h0l, h0t]
    norm_num
  · simp only [Device.white, h0w, h0t]
    norm_num
  · simp only [Device.lux, h3l, h3t]
    norm_num [Nat.shiftLeft_eq]
  · simp only [Device.white, h3w, h3t]
    norm_num [Nat.shiftLeft_eq]

/-- Pointwise form of `rwbit_set_make_eq`. -/
theorem rwbit_set_pt (reg bit w : Nat) (bus : Bus) (value : Bool)
    (hbw : bit / 8 < w) (r i : Nat) :
    (RWBit.set (RWBit.make reg bit w true) bus value).2 r i =
      if r = reg ∧ i < w then
        (if i = bit / 8 then
          (if value then bus reg (bit / 8) % 256 ||| 1 <<< (bit % 8)
           else bus reg (bit / 8) % 256 &&& (255 ^^^ 1 <<< (bit % 8)))
         else bus r i % 256)
      else bus r i :=
  congrFun (congrFun (congrArg Prod.snd (rwbit_set_make_eq reg bit w bus value hbw)) r) i

/-- A single-bit read returns false when the targeted bit of the
targeted byte is clear. -/
theorem rwbit_get_false (reg bit w : Nat) (bus : Bus) (hbw : bit / 8 < w)
    (h : bus reg (bit / 8) % 256 &&& 1 <<< (bit % 8) = 0) :
    RWBit.get (RWBit.make reg bit w true) bus = .ok false := by
  have hq := readBytes_get? bus reg w (bit / 8) hbw
  simp only [RWBit.get, RWBit.make]
  rw [if_true, hq]
  simp [h]

/-- Masking a byte with `a` and then testing a bit pattern disjoint from
`a` yields zero. -/
theorem masked_and_mod (x a b : Nat) (ha : a < 256) (hab : a &&& b = 0) :
    ((x &&& a) % 256) &&& b = 0 := by
  rw [Nat.mod_eq_of_lt (lt_of_le_of_lt Nat.and_le_right ha), Nat.land_assoc,
    hab, Nat.and_zero]

/-- Register file whose device-ID register 0x0C reads 0x186, all other
bytes zero. -/
def busGood : Bus := fun r i =>
  if r = 12 ∧ i = 0 then 0x86 else if r = 12 ∧ i = 1 then 1 else 0

set_option maxHeartbeats 1000000 in
/-- C5: when the device-ID register reads anything other than 0x186,
construction fails with RuntimeError and performs no register writes
(the register file is returned untouched); when it reads 0x186,
construction succeeds with every cached interrupt flag false, clears
the proximity-shutdown bit (register 0x03 bit 0), the
ambient-light-shutdown bit (register 0x00 bit 0) and the
white-channel-shutdown bit (register 0x04 bit 15), all three then
reading back false, and touches no other register. -/
theorem C5_construction (bus : Bus) :
    (UnaryStruct.get _device_id bus ≠ 0x186 →
      VCNL4040.init bus = (.error .runtimeError, bus)) ∧
    (UnaryStruct.get _device_id bus = 0x186 →
      ∃ d, VCNL4040.init bus = (.ok d, d.bus) ∧
        d.cache = initialCache ∧
        RWBit.get proximity_shutdown d.bus = .ok false ∧
        RWBit.get light_shutdown d.bus = .ok false ∧
        RWBit.get white_shutdown d.bus = .ok false ∧
        (∀ r i,
          d.bus r i =
            if r = 3 ∧ i = 0 then bus r i % 256 &&& 254
            else if r = 0 ∧ i = 0 then bus r i % 256 &&& 254
            else if r = 4 ∧ i = 1 then bus r i % 256 &&& 127
            else if (r = 3 ∨ r = 0 ∨ r = 4) ∧ i < 2 then bus r i % 256
            else bus r i)) := by
  constructor
  · intro h
    unfold VCNL4040.init
    rw [if_pos h]
  · intro h
    unfold VCNL4040.init
    rw [show proximity_shutdown = RWBit.make 3 0 2 true from rfl,
      show light_shutdown = RWBit.make 0 0 2 true from rfl,
      show white_shutdown = RWBit.make 4 15 2 true from rfl,
      if_neg (fun hne => hne h)]
    have ok3 : (RWBit.set (RWBit.make 3 0 2 true) bus false).1 = Except.ok () :=
      congrArg Prod.fst (rwbit_set_make_eq 3 0 2 bus false (by decide))
    have ok0 : (RWBit.set (RWBit.make 0 0 2 true)
        (RWBit.set (RWBit.make 3 0 2 true) bus false).2 false).1 = Except.ok () :=
      congrArg Prod.fst (rwbit_set_make_eq 0 0 2 _ false (by decide))
    have ok4 : (RWBit.set (RWBit.make 4 15 2 true)
        (RWBit.set (RWBit.make 0 0 2 true)
          (RWBit.set (RWBit.make 3 0 2 true) bus false).2 false).2 false).1
        = Except.ok () :=
      congrArg Prod.fst (rwbit_set_make_eq 4 15 2 _ false (by decide))
    have hframe : ∀ r i,
        (RWBit.set (RWBit.make 4 15 2 true)
          (RWBit.set (RWBit.make 0 0 2 true)
            (RWBit.set (RWBit.make 3 0 2 true) bus false).2 false).2 false).2 r i =
          if r = 3 ∧ i = 0 then bus r i % 256 &&& 254
          else if r = 0 ∧ i = 0 then bus r i % 256 &&& 254
          else if r = 4 ∧ i = 1 then bus r i % 256 &&& 127
          else if (r = 3 ∨ r = 0 ∨ r = 4) ∧ i < 2 then bus r i % 256
          else bus r i := by
      intro r i
      have q3 := rwbit_set_pt 3 0 2 bus false (by decide)
      have q0 := rwbit_set_pt 0 0 2
        ((RWBit.set (RWBit.make 3 0 2 true) bus false).2) false (by decide)
      have q4 := rwbit_set_pt 4 15 2
        ((RWBit.set (RWBit.make 0 0 2 true)
          (RWBit.set (RWBit.make 3 0 2 true) bus false).2 false).2) false (by decide)
      simp only [q4, q0, q3,
        show (15 : Nat) / 8 = 1 from rfl, show (15 : Nat) % 8 = 7 from rfl,
        show (0 : Nat) / 8 = 0 from rfl, show (0 : Nat) % 8 = 0 from rfl,
        show ((255 : Nat) ^^^ 1 <<< 7) = 127 from by decide,
        show ((255 : Nat) ^^^ 1 <<< 0) = 254 from by decide,
        Bool.false_eq_true, if_false]
      split_ifs <;> simp_all
    have hv3 : (RWBit.set (RWBit.make 4 15 2 true)
        (RWBit.set (RWBit.make 0 0 2 true)
          (RWBit.set (RWBit.make 3 0 2 true) bus false).2 false).2 false).2 3 0
        = bus 3 0 % 256 &&& 254 := by
      rw [hframe 3 0]
      norm_num
    have hv0 : (RWBit.set (RWBit.make 4 15 2 true)
        (RWBit.set (RWBit.make 0 0 2 true)
          (RWBit.set (RWBit.make 3 0 2 true) bus false).2 false).2 false).2 0 0
        = bus 0 0 % 256 &&& 254 := by
      rw [hframe 0 0]
      norm_num
    have hv4 : (RWBit.set (RWBit.make 4 15 2 true)
        (RWBit.set (RWBit.make 0 0 2 true)
          (RWBit.set (RWBit.make 3 0 2 true) bus false).2 false).2 false).2 4 1
        = bus 4 1 % 256 &&& 127 := by
      rw [hframe 4 1]
      norm_num
    simp only [ok3, ok0, ok4]
    refine ⟨_, rfl, rfl, ?_, ?_, ?_, ?_⟩
    · refine rwbit_get_false 3 0 2 _ (by decide) ?_
      have hm := masked_and_mod (bus 3 0 % 256) 254 1 (by norm_num) (by decide)
      simpa [hv3] using hm
    · refine rwbit_get_false 0 0 2 _ (by decide) ?_
      have hm := masked_and_mod (bus 0 0 % 256) 254 1 (by norm_num) (by decide)
      simpa [hv0] using hm
    · refine rwbit_get_false 4 15 2 _ (by decide) ?_
      have hm := masked_and_mod (bus 4 1 % 256) 127 128 (by norm_num) (by decide)
      simpa [hv4] using hm
    · intro r i
      exact hframe r i

/-- C5 witness: construction on the all-zero register file (device ID 0)
fails with RuntimeError and the untouched register file; on a register
file whose device-ID register reads 0x186 it succeeds. -/
theorem C5_witness :
    VCNL4040.init busZero = (.error .runtimeError, busZero) ∧
    (VCNL4040.init busGood).1.isOk = true := by
  constructor
  · exact (C5_construction busZero).1 (by decide)
  · obtain ⟨d, hd, -⟩ := (C5_construction busGood).2 (by decide)
    rw [hd]
    rfl

/-- Register file whose interrupt-status register 0x0B reads with the
PS_IF_CLOSE bit (bit 9) set and nothing else (little-endian bytes
`[0x00, 0x02]`). -/
def busPS : Bus := fun r i => if r = 0x0B ∧ i = 1 then 0x02 else 0

/-- C6: refresh performs one read of the interrupt-status register and
OR-latches each of the four flags (a clear status bit never clears a
cache entry); consume refreshes first, returns the cached boolean and
resets it to false.  Consequently one status event yields true exactly
once: an immediate re-consume with the status bit self-cleared returns
false, and two status events latched before consumption still yield
exactly one true return. -/
theorem C6_interrupt_cache_consume (d : Device) (k : Nat)
    (hk : k ∈ [PS_IF_AWAY, PS_IF_CLOSE, ALS_IF_H, ALS_IF_L]) :
    ((d.update_interrupt_state).cache.get k
       = (d.cache.get k ||
           decide (ROUnaryStruct.get interrupt_state d.bus &&& (1 <<< k) > 0)) ∧
     (d.get_and_clear_cached_interrupt_state k).1
       = (d.cache.get k ||
           decide (ROUnaryStruct.get interrupt_state d.bus &&& (1 <<< k) > 0)) ∧
     (d.get_and_clear_cached_interrupt_state k).2.cache.get k = false) ∧
    ((Device.get_and_clear_cached_interrupt_state ⟨busPS, initialCache⟩
        PS_IF_CLOSE).1 = true ∧
     (Device.get_and_clear_cached_interrupt_state
        ⟨busZero,
         (Device.get_and_clear_cached_interrupt_state ⟨busPS, initialCache⟩
            PS_IF_CLOSE).2.cache⟩ PS_IF_CLOSE).1 = false) ∧
    ((Device.get_and_clear_cached_interrupt_state
        ⟨busZero,
         (Device.update_interrupt_state
           ⟨busPS, (Device.update_interrupt_state ⟨busPS, initialCache⟩).cache⟩).cache⟩
        PS_IF_CLOSE).1 = true ∧
     (Device.get_and_clear_cached_interrupt_state
        ⟨busZero,
         (Device.get_and_clear_cached_interrupt_state
            ⟨busZero,
             (Device.update_interrupt_state
               ⟨busPS,
                (Device.update_interrupt_state ⟨busPS, initialCache⟩).cache⟩).cache⟩
            PS_IF_CLOSE).2.cache⟩ PS_IF_CLOSE).1 = false) := by
  refine ⟨?_, ⟨by decide, by decide⟩, ⟨by decide, by decide⟩⟩
  have hu := update_interrupt_state_cache d
  fin_cases hk <;>
    simp [Device.get_and_clear_cached_interrupt_state, hu, InterruptCache.get,
      InterruptCache.store, PS_IF_AWAY, PS_IF_CLOSE, ALS_IF_H, ALS_IF_L]

/-- C6 witness: consuming the PS_close flag on a device whose status
register reports the PS_close bit leaves the cache entry cleared. -/
theorem C6_witness :
    (Device.get_and_clear_cached_interrupt_state ⟨busPS, initialCache⟩
        PS_IF_CLOSE).2.cache.get PS_IF_CLOSE = false :=
  ((C6_interrupt_cache_consume ⟨busPS, initialCache⟩ PS_IF_CLOSE
      (by decide)).1).2.2

end VCNL
